import Mathlib

/-!
Verification of the rubber-duck elevation simulator (four Streamlit app
variants: app.py, app2.py, app3.py, appOld.py).

The computational core — weather-factor derivation, parameter resolution of
base elevation and weather factor against user overrides, and the per-mode
elevation/cost estimation formulas — is embedded shallowly here.  Python
floats are modelled as exact rationals (ℚ); the Streamlit UI, HTTP fetching
and caching are out of scope and appear only as the `Option`-valued readings
that resolution consumes.
-/

/-- Embeds `compute_weather_factor` (identical in app.py, app2.py, app3.py,
appOld.py): piecewise factor from wind speed in km/h. -/
def compute_weather_factor (wind_speed : ℚ) : ℚ :=
  if wind_speed < 10 then 1
  else if wind_speed < 20 then 0.9
  else 0.8

/-- A fetched weather reading.  The source stores the whole JSON
`current_weather` dict; resolution only ever reads the `wind_speed` key via
`weather_data.get("wind_speed", 0)`, whose possible absence we model with
`Option`. -/
structure WeatherData where
  wind_speed : Option ℚ
  deriving DecidableEq, Repr

/-- The override checkboxes and their manual values from Step 2 of the UI
(app.py lines 293-296; same four widgets in app2.py and app3.py). -/
structure Overrides where
  override_base_elev : Bool
  manual_base_elev : ℚ
  override_weather : Bool
  manual_weather_factor : ℚ
  deriving DecidableEq, Repr

namespace App

/-- Embeds app.py `simulate_elevation`. -/
def simulate_elevation (base_elev altitude_km efficiency weather_factor : ℚ) : ℚ :=
  base_elev + altitude_km * 1000 * efficiency * weather_factor

/-- Embeds app.py `estimate_cost`. -/
def estimate_cost (base_cost cost_per_gram cost_per_km mass_g altitude_km : ℚ) : ℚ :=
  base_cost + (cost_per_gram * mass_g) + (cost_per_km * altitude_km)

/-- Embeds app.py `estimate_custom_cost`. -/
def estimate_custom_cost (base_cost cost_per_gram cost_per_km mass_g altitude_km
    setup_time_hours labor_rate material_factor overhead_factor : ℚ) : ℚ :=
  overhead_factor *
    (base_cost + (cost_per_gram * mass_g) + (cost_per_km * altitude_km) +
      (setup_time_hours * labor_rate) + material_factor)

/-- Embeds app.py `simulate_custom_elevation`: base formula minus a wind
penalty, floored at 0. -/
def simulate_custom_elevation (base_elev altitude_km efficiency weather_factor
    wind_sensitivity wind_speed : ℚ) : ℚ :=
  max (base_elev + altitude_km * 1000 * efficiency * weather_factor
        - wind_speed * wind_sensitivity) 0

/-- The two early-return error paths of app.py `main` Step 7 (the spec's
error taxonomy names them MissingElevationError / MissingWeatherError). -/
inductive ResolutionError where
  | MissingElevationError
  | MissingWeatherError
  deriving DecidableEq, Repr

/-- The values app.py `main` has in scope after the resolution block
succeeds: `final_base_elev`, `wind_speed`, `computed_weather_factor`. -/
structure Resolved where
  final_base_elev : ℚ
  wind_speed : ℚ
  computed_weather_factor : ℚ
  deriving DecidableEq, Repr

/-- Embeds the parameter-resolution block of app.py `main` (lines 405-425):

    if (st.session_state.base_elev is None) and not override_base_elev: error
    final_base_elev = base_elev if (base_elev is not None and not override_base_elev)
                      else manual_base_elev
    if (weather_data is None) and not override_weather: error
    if weather_data is not None and not override_weather:
        wind_speed = weather_data.get("wind_speed", 0)
        computed_weather_factor = compute_weather_factor(wind_speed)
    else:
        wind_speed = 0
        computed_weather_factor = manual_weather_factor
-/
def resolveParams (base_elev : Option ℚ) (weather_data : Option WeatherData)
    (ov : Overrides) : Except ResolutionError Resolved :=
  if base_elev.isNone && !ov.override_base_elev then
    .error .MissingElevationError
  else
    let final_base_elev :=
      match base_elev, ov.override_base_elev with
      | some e, false => e
      | _, _ => ov.manual_base_elev
    if weather_data.isNone && !ov.override_weather then
      .error .MissingWeatherError
    else
      match weather_data, ov.override_weather with
      | some w, false =>
          let wind_speed := w.wind_speed.getD 0
          .ok ⟨final_base_elev, wind_speed, compute_weather_factor wind_speed⟩
      | _, _ => .ok ⟨final_base_elev, 0, ov.manual_weather_factor⟩

/-- Python's `round(x, 2)` on the exact rational value: scale by 100, round
half to even to an integer, scale back. -/
def round2 (x : ℚ) : ℚ :=
  ((if x * 100 - (⌊x * 100⌋ : ℚ) < 1 / 2 then ⌊x * 100⌋
    else if 1 / 2 < x * 100 - (⌊x * 100⌋ : ℚ) then ⌊x * 100⌋ + 1
    else if ⌊x * 100⌋ % 2 = 0 then ⌊x * 100⌋
    else ⌊x * 100⌋ + 1 : ℤ) : ℚ) / 100

/-- A built-in transport mode's parameter bundle (the values of the
`transport_params[mode]` dicts in app.py). -/
structure StandardParams where
  base_cost : ℚ
  cost_per_gram : ℚ
  cost_per_km : ℚ
  efficiency : ℚ
  deriving DecidableEq, Repr

/-- The `custom_lift_method` dict from app.py Step 5. -/
structure CustomParams where
  name : String
  base_cost : ℚ
  cost_per_gram : ℚ
  cost_per_km : ℚ
  efficiency : ℚ
  setup_time_hours : ℚ
  labor_rate : ℚ
  material_factor : ℚ
  overhead_factor : ℚ
  wind_sensitivity : ℚ
  deriving DecidableEq, Repr

/-- One row of the `results` list (mode name, rounded elevation, rounded
cost). -/
structure ResultRow where
  mode : String
  final_elevation : ℚ
  estimated_cost : ℚ
  deriving DecidableEq, Repr

/-- One iteration of the built-in loop of app.py `main` (lines 429-454). -/
def standardRow (mode : String) (p : StandardParams)
    (base_elev altitude_km weather_factor mass_g : ℚ) : ResultRow :=
  { mode := mode
    final_elevation :=
      round2 (simulate_elevation base_elev altitude_km p.efficiency weather_factor)
    estimated_cost :=
      round2 (estimate_cost p.base_cost p.cost_per_gram p.cost_per_km mass_g altitude_km) }

/-- The custom-method row of app.py `main` (lines 457-484). -/
def customRow (cm : CustomParams)
    (base_elev altitude_km weather_factor wind_speed mass_g : ℚ) : ResultRow :=
  { mode := cm.name
    final_elevation :=
      round2 (simulate_custom_elevation base_elev altitude_km cm.efficiency
        weather_factor cm.wind_sensitivity wind_speed)
    estimated_cost :=
      round2 (estimate_custom_cost cm.base_cost cm.cost_per_gram cm.cost_per_km
        mass_g altitude_km cm.setup_time_hours cm.labor_rate cm.material_factor
        cm.overhead_factor) }

/-- The result-building loop of app.py `main` (lines 428-484): one row per
built-in mode in registry insertion order, then the custom row appended last
when `use_custom_method` is set.  The registry is the insertion-ordered
`transport_params` dict, modelled as an association list. -/
def runSimulation (transport_params : List (String × StandardParams))
    (use_custom_method : Bool) (cm : CustomParams)
    (base_elev altitude_km weather_factor wind_speed mass_g : ℚ) : List ResultRow :=
  (transport_params.map fun mp =>
    standardRow mp.1 mp.2 base_elev altitude_km weather_factor mass_g) ++
  (if use_custom_method then
    [customRow cm base_elev altitude_km weather_factor wind_speed mass_g]
  else [])

end App

namespace App2

/-- The values app2.py `main` has after its resolution block: app2 keeps no
wind-speed field for later use (it has no custom method). -/
structure Resolved2 where
  final_base_elev : ℚ
  computed_weather_factor : ℚ
  deriving DecidableEq, Repr

/-- Embeds the resolution block of app2.py `main` (lines 232-242): a single
combined guard

    if (base_elev is None or weather_data is None)
       and not (override_base_elev and override_weather): error

followed by the same per-field selection as app.py. -/
def resolveParams (base_elev : Option ℚ) (weather_data : Option WeatherData)
    (ov : Overrides) : Except Unit Resolved2 :=
  if (base_elev.isNone || weather_data.isNone)
      && !(ov.override_base_elev && ov.override_weather) then
    .error ()
  else
    let final_base_elev :=
      match base_elev, ov.override_base_elev with
      | some e, false => e
      | _, _ => ov.manual_base_elev
    match weather_data, ov.override_weather with
    | some w, false =>
        .ok ⟨final_base_elev, compute_weather_factor (w.wind_speed.getD 0)⟩
    | _, _ => .ok ⟨final_base_elev, ov.manual_weather_factor⟩

end App2

namespace AppOld

/-- Embeds appOld.py `simulate_elevation`: the superseded budget-scenario
formula `additional = (budget/50) * efficiency * weather_factor * 50`. -/
def simulate_elevation (base_elev budget efficiency weather_factor : ℚ) : ℚ :=
  base_elev + (budget / 50) * efficiency * weather_factor * 50

end AppOld

/-- C1: for every Standard transport model the estimation engine computes
final_elevation = base_elevation + target_altitude_km * 1000 * efficiency *
weather_factor and cost = base_cost + cost_per_gram * payload_mass_g +
cost_per_km * target_altitude_km (rounded to 2 decimals at the output row);
in particular the Drone preset with base_elevation 10, weather_factor 1,
payload 10 g and target altitude 1 km yields the row (1310.0 m, 20.65). -/
theorem spec_C1 :
    (∀ b alt eff wf : ℚ,
      App.simulate_elevation b alt eff wf = b + alt * 1000 * eff * wf) ∧
    (∀ bc cpg cpk m alt : ℚ,
      App.estimate_cost bc cpg cpk m alt = bc + cpg * m + cpk * alt) ∧
    (∀ (n : String) (p : App.StandardParams) (b alt wf m : ℚ),
      App.standardRow n p b alt wf m =
        ⟨n, App.round2 (b + alt * 1000 * p.efficiency * wf),
          App.round2 (p.base_cost + p.cost_per_gram * m + p.cost_per_km * alt)⟩) ∧
    App.standardRow "Drone" ⟨20, 0.05, 0.15, 1.3⟩ 10 1 1 10 = ⟨"Drone", 1310, 20.65⟩ := by
  refine ⟨fun b alt eff wf => rfl, fun bc cpg cpk m alt => rfl,
    fun n p b alt wf m => rfl, ?_⟩
  simp only [App.standardRow, App.simulate_elevation, App.estimate_cost,
    App.ResultRow.mk.injEq]
  exact ⟨trivial, by norm_num [App.round2], by norm_num [App.round2]⟩

/-- C4: the weather factor is exactly 1.0 for wind below 10, 0.9 for wind in
[10, 20), and 0.8 for wind at least 20; hence it takes only the values
{1.0, 0.9, 0.8} and is monotonically non-increasing in the wind speed, its
value changing only across the break points 10 and 20. -/
theorem spec_C4 :
    (∀ w : ℚ, 0 ≤ w →
      (w < 10 → compute_weather_factor w = 1) ∧
      (10 ≤ w → w < 20 → compute_weather_factor w = 0.9) ∧
      (20 ≤ w → compute_weather_factor w = 0.8)) ∧
    (∀ w : ℚ, 0 ≤ w →
      compute_weather_factor w = 1 ∨ compute_weather_factor w = 0.9 ∨
        compute_weather_factor w = 0.8) ∧
    (∀ w1 w2 : ℚ, 0 ≤ w1 → w1 ≤ w2 →
      compute_weather_factor w2 ≤ compute_weather_factor w1) := by
  refine ⟨fun w hw => ?_, fun w hw => ?_, fun w1 w2 hw h => ?_⟩
  · unfold compute_weather_factor
    refine ⟨fun h1 => ?_, fun h1 h2 => ?_, fun h1 => ?_⟩ <;>
      split_ifs <;> first | rfl | linarith
  · unfold compute_weather_factor
    split_ifs <;> simp
  · unfold compute_weather_factor
    split_ifs <;> try norm_num
    all_goals linarith

/-- C4 witness: the monotonicity part of spec_C4 applied at wind speeds 5
and 15. -/
theorem spec_C4_witness :
    (0:ℚ) ≤ 5 ∧ (5:ℚ) ≤ 15 ∧
      compute_weather_factor 15 ≤ compute_weather_factor 5 :=
  ⟨by norm_num, by norm_num,
    spec_C4.2.2 5 15 (by norm_num) (by norm_num)⟩

/-- C5: the Custom model final elevation is the wind-penalised formula
floored at 0, hence never negative however large the penalty grows. -/
theorem spec_C5 :
    ∀ b alt eff wf sens ws : ℚ,
      App.simulate_custom_elevation b alt eff wf sens ws
          = max (b + alt * 1000 * eff * wf - ws * sens) 0 ∧
      0 ≤ App.simulate_custom_elevation b alt eff wf sens ws :=
  fun b alt eff wf sens ws => ⟨rfl, le_max_right _ 0⟩

/-- C6: the Custom model cost is overhead_factor times the sum of the base
cost, per-gram, per-km, labor and material terms; at the documented example
parameters it equals 1.2 * 80.55 = 96.66. -/
theorem spec_C6 :
    (∀ bc cpg cpk m alt sth lr mf ovf : ℚ,
      App.estimate_custom_cost bc cpg cpk m alt sth lr mf ovf
        = ovf * (bc + cpg * m + cpk * alt + sth * lr + mf)) ∧
    App.estimate_custom_cost 30 0.03 0.25 10 1 2 20 10 1.2 = 96.66 := by
  refine ⟨fun bc cpg cpk m alt sth lr mf ovf => rfl, ?_⟩
  norm_num [App.estimate_custom_cost]

/-- C9: the superseded budget-scenario formula of the oldest variant,
base_elev + (budget/50) * efficiency * weather_factor * 50, is algebraically
equal to base_elev + budget * efficiency * weather_factor. -/
theorem spec_C9 :
    ∀ b budget eff wf : ℚ,
      AppOld.simulate_elevation b budget eff wf = b + budget * eff * wf := by
  intro b budget eff wf
  unfold AppOld.simulate_elevation
  ring

/-- Helper: the weather factor at zero wind speed is 1. -/
theorem compute_weather_factor_zero : compute_weather_factor 0 = 1 := by
  unfold compute_weather_factor
  norm_num

/-- Helper for C8: mapping the mode projection over the built-in rows
recovers the registry names in insertion order. -/
theorem standardRow_mode_map (tp : List (String × App.StandardParams))
    (b alt wf m : ℚ) :
    (tp.map fun mp => App.standardRow mp.1 mp.2 b alt wf m).map App.ResultRow.mode
      = tp.map Prod.fst := by
  induction tp with
  | nil => rfl
  | cons hd tl ih =>
      simp only [List.map_cons]
      rw [ih]
      rfl

/-- C8: the engine emits exactly one row per active model, named in registry
insertion order with the Custom row (when enabled) appended last, and the
output is deterministic in the input. -/
theorem spec_C8 :
    ∀ (tp : List (String × App.StandardParams)) (uc : Bool) (cm : App.CustomParams)
      (b alt wf ws m : ℚ),
      ((App.runSimulation tp uc cm b alt wf ws m).map App.ResultRow.mode
          = tp.map Prod.fst ++ (if uc then [cm.name] else [])) ∧
      ((App.runSimulation tp uc cm b alt wf ws m).length
          = tp.length + (if uc then 1 else 0)) ∧
      App.runSimulation tp uc cm b alt wf ws m
        = App.runSimulation tp uc cm b alt wf ws m := by
  intro tp uc cm b alt wf ws m
  refine ⟨?_, ?_, rfl⟩
  · simp only [App.runSimulation, List.map_append]
    rw [standardRow_mode_map]
    congr 1
    cases uc <;> rfl
  · simp only [App.runSimulation, List.length_append, List.length_map]
    cases uc <;> simp

/-- C7: whenever resolution succeeds, each field independently follows its
override flag: a set flag selects the manual value even when a reading
exists, an unset flag selects the fetched reading (for weather, the factor
derived from the reading wind speed). -/
theorem spec_C7 :
    ∀ (b : Option ℚ) (w : Option WeatherData) (ov : Overrides) (r : App.Resolved),
      App.resolveParams b w ov = .ok r →
      (ov.override_base_elev = true → r.final_base_elev = ov.manual_base_elev) ∧
      (∀ e, ov.override_base_elev = false → b = some e → r.final_base_elev = e) ∧
      (ov.override_weather = true →
        r.computed_weather_factor = ov.manual_weather_factor) ∧
      (∀ wd, ov.override_weather = false → w = some wd →
        r.computed_weather_factor = compute_weather_factor (wd.wind_speed.getD 0)) := by
  intro b w ov r h
  obtain ⟨obe, mbe, owf, mwf⟩ := ov
  cases b <;> cases w <;> cases obe <;> cases owf <;>
    simp_all [App.resolveParams] <;> subst h <;> exact ⟨rfl, rfl⟩

/-- C7 witness: spec_C7 applied to a run with both readings fetched and both
override flags off. -/
theorem spec_C7_witness :
    App.resolveParams (some 5) (some ⟨some 25⟩) ⟨false, 0, false, 1⟩
        = .ok ⟨5, 25, 0.8⟩ ∧
    ((false = true → (5:ℚ) = 0) ∧
     (∀ e : ℚ, false = false → some (5:ℚ) = some e → (5:ℚ) = e) ∧
     (false = true → (0.8:ℚ) = 1) ∧
     (∀ wd : WeatherData, false = false → some (⟨some 25⟩ : WeatherData) = some wd →
        (0.8:ℚ) = compute_weather_factor (wd.wind_speed.getD 0))) :=
  ⟨rfl, spec_C7 (some 5) (some ⟨some 25⟩) ⟨false, 0, false, 1⟩ ⟨5, 25, 0.8⟩ rfl⟩

/-- C2 counterexample: in app2, with only the elevation reading missing and
the elevation override set (weather fetched, weather override off), the
coupled guard still rejects the run, although the claim says resolution
succeeds; and in app.py, when both readings are missing with both overrides
off, the failure surfaced is MissingElevationError, not MissingWeatherError,
although the weather side of the claimed iff holds. -/
theorem spec_C2_counterexample :
    App2.resolveParams none (some ⟨some 5⟩) ⟨true, 100, false, 1⟩ = .error () ∧
    App.resolveParams none none ⟨false, 0, false, 1⟩
        = .error .MissingElevationError ∧
    App.resolveParams none none ⟨false, 0, false, 1⟩
        ≠ .error .MissingWeatherError := by
  refine ⟨rfl, rfl, fun h => ?_⟩
  simp [App.resolveParams] at h

/-- C2 (amended): in app.py, resolution fails with MissingElevationError iff
the elevation reading is absent and its override is off; it fails with
MissingWeatherError iff the elevation side does not fail, the weather
reading is absent and its override is off (the elevation error shadows the
weather error when both are missing); it succeeds iff neither condition
holds, so the two fields resolve independently there.  In app2, the guard is
coupled: resolution fails (with one combined error) iff some reading is
missing and not both overrides are set. -/
theorem spec_C2_amended :
    ∀ (b : Option ℚ) (w : Option WeatherData) (ov : Overrides),
      (App.resolveParams b w ov = .error .MissingElevationError
          ↔ b = none ∧ ov.override_base_elev = false) ∧
      (App.resolveParams b w ov = .error .MissingWeatherError
          ↔ ¬(b = none ∧ ov.override_base_elev = false) ∧
            w = none ∧ ov.override_weather = false) ∧
      ((∃ r, App.resolveParams b w ov = .ok r)
          ↔ ¬(b = none ∧ ov.override_base_elev = false) ∧
            ¬(w = none ∧ ov.override_weather = false)) ∧
      (App2.resolveParams b w ov = .error ()
          ↔ (b = none ∨ w = none) ∧
            ¬(ov.override_base_elev = true ∧ ov.override_weather = true)) := by
  intro b w ov
  obtain ⟨obe, mbe, owf, mwf⟩ := ov
  cases b <;> cases w <;> cases obe <;> cases owf <;>
    simp [App.resolveParams, App2.resolveParams]

/-- C3 counterexample: with a fetched wind speed of 25 km/h and the weather
override set, resolution stores wind_speed = 0, and the Custom elevation
computed from that stored value differs from the claim's raw-wind formula
(1210 versus 1207.5). -/
theorem spec_C3_counterexample :
    App.resolveParams (some 10) (some ⟨some 25⟩) ⟨false, 0, true, 1⟩
        = .ok ⟨10, 0, 1⟩ ∧
    App.simulate_custom_elevation 10 1 1.2 1 0.1 0
        ≠ max (10 + 1 * 1000 * 1.2 * 1 - 25 * 0.1) 0 := by
  refine ⟨rfl, ?_⟩
  unfold App.simulate_custom_elevation
  rw [max_eq_left (by norm_num), max_eq_left (by norm_num)]
  norm_num

/-- C3 (amended): when the weather override flag is set, resolution stores
wind_speed = 0 — the reading's raw wind speed is discarded — so the Custom
model's wind penalty is 0; the raw wind speed feeds the penalty only when
the weather factor was not overridden. -/
theorem spec_C3_amended :
    ∀ (b : Option ℚ) (w : Option WeatherData) (ov : Overrides) (r : App.Resolved),
      App.resolveParams b w ov = .ok r →
      (ov.override_weather = true →
        r.wind_speed = 0 ∧ ∀ sens : ℚ, r.wind_speed * sens = 0) ∧
      (∀ wd, ov.override_weather = false → w = some wd →
        r.wind_speed = wd.wind_speed.getD 0) := by
  intro b w ov r h
  obtain ⟨obe, mbe, owf, mwf⟩ := ov
  cases b <;> cases w <;> cases obe <;> cases owf <;>
    simp_all [App.resolveParams] <;> subst h <;>
    first
    | exact ⟨rfl, fun sens => Or.inl rfl⟩
    | rfl

/-- C3 witness: spec_C3_amended applied to the run of the counterexample
scenario (reading wind 25, weather override on). -/
theorem spec_C3_witness :
    App.resolveParams (some 10) (some ⟨some 25⟩) ⟨false, 0, true, 1⟩
        = .ok ⟨10, 0, 1⟩ ∧
    ((true = true → (0:ℚ) = 0 ∧ ∀ sens : ℚ, (0:ℚ) * sens = 0) ∧
     (∀ wd : WeatherData, true = false → some (⟨some 25⟩ : WeatherData) = some wd →
        (0:ℚ) = wd.wind_speed.getD 0)) :=
  ⟨rfl, spec_C3_amended (some 10) (some ⟨some 25⟩) ⟨false, 0, true, 1⟩
    ⟨10, 0, 1⟩ rfl⟩

/-- C10: a weather reading that lacks the wind_speed entry does not make
resolution fail when the weather override is off: the wind speed defaults to
0, the factor resolves to compute_weather_factor 0 = 1, and the Custom wind
penalty is 0 — in app.py and in app2. -/
theorem spec_C10 (b : Option ℚ) (ov ov2 : Overrides) (e : ℚ)
    (h1 : ov.override_weather = false)
    (h2 : ¬(b = none ∧ ov.override_base_elev = false))
    (h3 : ov2.override_weather = false) :
    (∃ r, App.resolveParams b (some ⟨none⟩) ov = .ok r ∧
      r.wind_speed = 0 ∧ r.computed_weather_factor = 1 ∧
      ∀ sens : ℚ, r.wind_speed * sens = 0) ∧
    (∃ r2, App2.resolveParams (some e) (some ⟨none⟩) ov2 = .ok r2 ∧
      r2.computed_weather_factor = 1) := by
  obtain ⟨obe, mbe, owf, mwf⟩ := ov
  obtain ⟨obe2, mbe2, owf2, mwf2⟩ := ov2
  subst h1
  subst h3
  cases b <;> cases obe <;> cases obe2 <;>
    simp_all [App.resolveParams, App2.resolveParams, compute_weather_factor_zero]

/-- C10 witness: spec_C10 at a run with both readings fetched (weather
reading without wind_speed key) and no overrides. -/
theorem spec_C10_witness :
    (⟨false, 0, false, 1⟩ : Overrides).override_weather = false ∧
    ¬(some (3:ℚ) = none ∧
        (⟨false, 0, false, 1⟩ : Overrides).override_base_elev = false) ∧
    ((∃ r, App.resolveParams (some 3) (some ⟨none⟩) ⟨false, 0, false, 1⟩
          = .ok r ∧
        r.wind_speed = 0 ∧ r.computed_weather_factor = 1 ∧
        ∀ sens : ℚ, r.wind_speed * sens = 0) ∧
     (∃ r2, App2.resolveParams (some 7) (some ⟨none⟩) ⟨false, 0, false, 1⟩
          = .ok r2 ∧
        r2.computed_weather_factor = 1)) :=
  ⟨rfl, by simp,
    spec_C10 (some 3) ⟨false, 0, false, 1⟩ ⟨false, 0, false, 1⟩ 7 rfl
      (by simp) rfl⟩
